import Mathlib

/-
Verification of the invoke-training SD LoRA training pipeline against its
natural-language specification.

Shallow embedding of:
  src/invoke_training/pipelines/stable_diffusion/lora/train.py
  src/invoke_training/training/_shared/data/data_loaders/textual_inversion_sd_dataloader.py

Tensors are modelled over exact rationals: a batched tensor is a list (batch
dimension) of flattened per-example feature lists. External collaborators
(VAE, UNet, text encoder, scheduler noising/velocity formulas, SNR
computation) are opaque function parameters bundled in a record, since the
spec treats them as external interfaces. Randomness (noise sampling, timestep
sampling) is externalized: the sampled values are explicit arguments.
-/

/-- A per-example scalar vector (one rational per batch element). -/
abbrev Tensor1 := List ℚ

/-- A batched tensor: outer list is the batch dimension, inner list is the
flattened feature dimensions of one example. -/
abbrev Tensor2 := List (List ℚ)

/-- The scheduler configuration fields read or written by train_forward
(diffusers DDPMScheduler.config). -/
structure SchedulerConfig where
  num_train_timesteps : ℕ
  prediction_type : String
deriving DecidableEq

/-- Frozen sub-models and scheduler formulas used by train_forward, treated as
opaque external collaborators. -/
structure SdModels where
  vaeSample : Tensor2 → Tensor2
  vaeScalingFactor : ℚ
  addNoise : Tensor2 → Tensor2 → List ℕ → Tensor2
  getVelocity : Tensor2 → Tensor2 → List ℕ → Tensor2
  encodeCaption : List String → Tensor2
  unet : Tensor2 → List ℕ → Tensor2 → Tensor2
  computeSnr : SchedulerConfig → List ℕ → Tensor1

/-- One collated data batch as consumed by train_forward: raw fields and
optional cache-hydrated fields. -/
structure DataBatch where
  image : Option Tensor2
  caption : List String
  vae_output : Option Tensor2
  text_encoder_output : Option Tensor2
  loss_weight : Option Tensor1

/-- The slice of SdLoraConfig read by train_forward. -/
structure ForwardConfig where
  prediction_type : Option String
deriving DecidableEq

/-- Failures that train_forward can raise. -/
inductive TrainFwdError where
  | keyError (field : String)
  | unknownPredictionType (p : String)
deriving DecidableEq

/-- Mean of a list of rationals (torch mean over the listed values). -/
def listMean (l : List ℚ) : ℚ := l.sum / (l.length : ℚ)

/-- Multiply every element of a batched tensor by a constant
(train.py line 181: latents = latents * vae.config.scaling_factor). -/
def scaleT2 (c : ℚ) (t : Tensor2) : Tensor2 := t.map (fun r => r.map (fun x => x * c))

/-- train.py lines 178-181: use cached vae_output when present in the batch,
else encode the image with the VAE and scale; a missing image field is a
lookup failure. -/
def latentsOf (models : SdModels) (data_batch : DataBatch) : Except TrainFwdError Tensor2 :=
  match data_batch.vae_output with
  | some v => .ok v
  | none =>
    match data_batch.image with
    | some img => .ok (scaleT2 models.vaeScalingFactor (models.vaeSample img))
    | none => .error (.keyError "image")

/-- train.py lines 202-205: use cached text_encoder_output when present, else
run the tokenizer and frozen text encoder on the captions. -/
def condOf (models : SdModels) (data_batch : DataBatch) : Tensor2 :=
  match data_batch.text_encoder_output with
  | some h => h
  | none => models.encodeCaption data_batch.caption

/-- train.py lines 208-210: when config.prediction_type is set, it is written
into the scheduler configuration (register_to_config), which all later reads
of noise_scheduler.config.prediction_type observe. -/
def effectiveScheduler (config : ForwardConfig) (noise_scheduler : SchedulerConfig) :
    SchedulerConfig :=
  match config.prediction_type with
  | some p => { noise_scheduler with prediction_type := p }
  | none => noise_scheduler

/-- train.py lines 211-216: select the regression target from the scheduler
prediction type. -/
def selectTarget (models : SdModels) (sched : SchedulerConfig)
    (latents noise : Tensor2) (timesteps : List ℕ) : Except TrainFwdError Tensor2 :=
  if sched.prediction_type = "epsilon" then .ok noise
  else if sched.prediction_type = "v_prediction" then
    .ok (models.getVelocity latents noise timesteps)
  else .error (.unknownPredictionType sched.prediction_type)

/-- train.py lines 221-239: min-SNR loss weights. torch.clamp(snr, max=gamma)
is elementwise min with gamma. -/
def minSnrWeightsOf (models : SdModels) (sched : SchedulerConfig) (gamma : ℚ)
    (timesteps : List ℕ) : Except TrainFwdError Tensor1 :=
  let snr := models.computeSnr sched timesteps
  let w := snr.map (fun s => min s gamma / s)
  if sched.prediction_type = "epsilon" then .ok w
  else if sched.prediction_type = "v_prediction" then .ok (w.map (fun x => x + 1))
  else .error (.unknownPredictionType sched.prediction_type)

/-- train.py lines 241-244: elementwise squared error, mean-reduced over every
dimension except the batch dimension (one scalar per example). -/
def msePerExample (model_pred target : Tensor2) : Tensor1 :=
  List.zipWith (fun p t => listMean (List.zipWith (fun a b => (a - b) ^ 2) p t))
    model_pred target

/-- train.py lines 160-254 (train_forward): the forward training pass for one
data batch. The sampled noise and timesteps are explicit arguments (the source
draws them from the torch RNG). Returns the scalar loss together with the
scheduler configuration as it stands after the call, so that the
register_to_config write of lines 208-210 is observable. -/
def train_forward (config : ForwardConfig) (data_batch : DataBatch) (models : SdModels)
    (noise_scheduler : SchedulerConfig) (noise : Tensor2) (timesteps : List ℕ)
    (min_snr_gamma : Option ℚ) : Except TrainFwdError (ℚ × SchedulerConfig) :=
  match latentsOf models data_batch with
  | .error e => .error e
  | .ok latents =>
    let noisy_latents := models.addNoise latents noise timesteps
    let encoder_hidden_states := condOf models data_batch
    let sched := effectiveScheduler config noise_scheduler
    match selectTarget models sched latents noise timesteps with
    | .error e => .error e
    | .ok target =>
      let model_pred := models.unet noisy_latents timesteps encoder_hidden_states
      match (match min_snr_gamma with
             | none => Except.ok none
             | some g => (minSnrWeightsOf models sched g timesteps).map some) with
      | .error e => .error e
      | .ok min_snr_weights =>
        let loss := msePerExample model_pred target
        let loss :=
          match min_snr_weights with
          | some w => List.zipWith (fun x y => x * y) loss w
          | none => loss
        let loss :=
          match data_batch.loss_weight with
          | some w => List.zipWith (fun x y => x * y) loss w
          | none => loss
        .ok (listMean loss, sched)

/-- A concrete model bundle used to evaluate theorems on explicit inputs. -/
def sampleModels : SdModels where
  vaeSample := fun t => t
  vaeScalingFactor := 1
  addNoise := fun l n _ => List.zipWith (List.zipWith (fun a b => a + b)) l n
  getVelocity := fun _ n _ => n
  encodeCaption := fun _ => [[0]]
  unet := fun nl _ _ => nl
  computeSnr := fun _ ts => ts.map (fun t => (t : ℚ) + 1)

/-- A concrete batch with all cacheable fields present and a loss weight. -/
def sampleBatch : DataBatch where
  image := some [[2]]
  caption := ["a photo"]
  vae_output := some [[1]]
  text_encoder_output := some [[0]]
  loss_weight := some [2]

/-- A concrete scheduler configured for epsilon prediction. -/
def sampleSchedEps : SchedulerConfig where
  num_train_timesteps := 1000
  prediction_type := "epsilon"

/-- A concrete scheduler configured for v_prediction. -/
def sampleSchedV : SchedulerConfig where
  num_train_timesteps := 1000
  prediction_type := "v_prediction"

/-- A forward config overriding the prediction type to v_prediction. -/
def sampleCfgV : ForwardConfig where
  prediction_type := some "v_prediction"

/-- A forward config overriding the prediction type to an unsupported value. -/
def sampleCfgBad : ForwardConfig where
  prediction_type := some "sample"

/-- A forward config leaving the scheduler prediction type untouched. -/
def sampleCfgNone : ForwardConfig where
  prediction_type := none

/-- C1: in train_forward the regression target is selected by the scheduler
configured prediction type: for epsilon the target is exactly the sampled
noise; for v_prediction it is the scheduler velocity formula applied to
(latents, noise, timesteps); for any other prediction type value
train_forward fails with an unsupported-prediction-type error instead of
returning a loss. -/
theorem C1_prediction_type_selects_target
    (models : SdModels) (sched : SchedulerConfig) (latents noise : Tensor2)
    (timesteps : List ℕ) (config : ForwardConfig) (data_batch : DataBatch)
    (gamma : Option ℚ) :
    (sched.prediction_type = "epsilon" →
      selectTarget models sched latents noise timesteps = .ok noise)
    ∧ (sched.prediction_type = "v_prediction" →
      selectTarget models sched latents noise timesteps =
        .ok (models.getVelocity latents noise timesteps))
    ∧ ((effectiveScheduler config sched).prediction_type ≠ "epsilon" →
      (effectiveScheduler config sched).prediction_type ≠ "v_prediction" →
      ∀ lat, latentsOf models data_batch = .ok lat →
      train_forward config data_batch models sched noise timesteps gamma =
        .error (.unknownPredictionType (effectiveScheduler config sched).prediction_type)) := by
  refine ⟨fun h => ?_, fun h => ?_, fun h1 h2 lat hlat => ?_⟩
  · simp [selectTarget, h]
  · simp [selectTarget, h]
  · simp only [train_forward, hlat, selectTarget, if_neg h1, if_neg h2]

/-- C1 witness: the three branches evaluated on concrete inputs. -/
theorem C1_witness :
    selectTarget sampleModels sampleSchedEps [[1]] [[3]] [0] = .ok [[3]]
    ∧ selectTarget sampleModels sampleSchedV [[1]] [[3]] [0] =
        .ok (sampleModels.getVelocity [[1]] [[3]] [0])
    ∧ train_forward sampleCfgBad sampleBatch sampleModels sampleSchedEps [[0]] [0] none =
        .error (.unknownPredictionType "sample") := by
  refine ⟨(C1_prediction_type_selects_target sampleModels sampleSchedEps [[1]] [[3]] [0]
      sampleCfgBad sampleBatch none).1 rfl,
    (C1_prediction_type_selects_target sampleModels sampleSchedV [[1]] [[3]] [0]
      sampleCfgBad sampleBatch none).2.1 rfl,
    (C1_prediction_type_selects_target sampleModels sampleSchedEps [[0]] [[0]] [0]
      sampleCfgBad sampleBatch none).2.2 (by decide) (by decide) [[1]] rfl⟩

/-- C2: with no min-SNR weighting configured, the returned loss is the batch
mean of the per-example losses, where each per-example loss is the mean over
the feature dimensions of the squared error between the model prediction and
the target, multiplied elementwise by loss_weight when the batch carries one. -/
theorem C2_loss_is_weighted_batch_mean_mse
    (models : SdModels) (config : ForwardConfig) (data_batch : DataBatch)
    (noise_scheduler : SchedulerConfig) (noise : Tensor2) (timesteps : List ℕ)
    (lat tgt : Tensor2)
    (hlat : latentsOf models data_batch = .ok lat)
    (htgt : selectTarget models (effectiveScheduler config noise_scheduler)
      lat noise timesteps = .ok tgt) :
    train_forward config data_batch models noise_scheduler noise timesteps none =
      .ok
        (listMean
          (match data_batch.loss_weight with
           | some w =>
             List.zipWith (fun x y => x * y)
               (List.zipWith
                 (fun p t => listMean (List.zipWith (fun a b => (a - b) ^ 2) p t))
                 (models.unet (models.addNoise lat noise timesteps) timesteps
                   (condOf models data_batch)) tgt) w
           | none =>
             List.zipWith
               (fun p t => listMean (List.zipWith (fun a b => (a - b) ^ 2) p t))
               (models.unet (models.addNoise lat noise timesteps) timesteps
                 (condOf models data_batch)) tgt),
         effectiveScheduler config noise_scheduler) := by
  simp only [train_forward, hlat, htgt, msePerExample]

/-- C2 witness: evaluated on a concrete batch carrying a loss_weight. -/
theorem C2_witness :
    train_forward sampleCfgNone sampleBatch sampleModels sampleSchedEps [[0]] [0] none =
      .ok (2, sampleSchedEps) := by
  have h := C2_loss_is_weighted_batch_mean_mse sampleModels sampleCfgNone sampleBatch
    sampleSchedEps [[0]] [0] [[1]] [[0]] rfl rfl
  rw [h]
  norm_num [sampleBatch, sampleModels, sampleCfgNone, effectiveScheduler, listMean]

/-- C3: with a min-SNR gamma configured, the per-example loss weight for the
epsilon prediction type is min(SNR, gamma)/SNR with no offset, for
v_prediction it is min(SNR, gamma)/SNR + 1, and for any other prediction type
train_forward fails with an unsupported-prediction-type error. -/
theorem C3_min_snr_weights
    (models : SdModels) (sched : SchedulerConfig) (gamma : ℚ) (timesteps : List ℕ)
    (config : ForwardConfig) (data_batch : DataBatch) (noise : Tensor2) :
    (sched.prediction_type = "epsilon" →
      minSnrWeightsOf models sched gamma timesteps =
        .ok ((models.computeSnr sched timesteps).map (fun s => min s gamma / s)))
    ∧ (sched.prediction_type = "v_prediction" →
      minSnrWeightsOf models sched gamma timesteps =
        .ok ((models.computeSnr sched timesteps).map (fun s => min s gamma / s + 1)))
    ∧ ((effectiveScheduler config sched).prediction_type ≠ "epsilon" →
      (effectiveScheduler config sched).prediction_type ≠ "v_prediction" →
      ∀ lat, latentsOf models data_batch = .ok lat →
      train_forward config data_batch models sched noise timesteps (some gamma) =
        .error
          (.unknownPredictionType (effectiveScheduler config sched).prediction_type)) := by
  refine ⟨fun h => ?_, fun h => ?_, fun h1 h2 lat hlat => ?_⟩
  · simp [minSnrWeightsOf, h]
  · simp [minSnrWeightsOf, h, List.map_map, Function.comp]
  · simp only [train_forward, hlat, selectTarget, if_neg h1, if_neg h2]

/-- C3 witness: the weight formulas evaluated on concrete timesteps, and the
failure case on a concrete unsupported prediction type. -/
theorem C3_witness :
    minSnrWeightsOf sampleModels sampleSchedEps 2 [0, 3] = .ok [1, 1/2]
    ∧ minSnrWeightsOf sampleModels sampleSchedV 2 [0, 3] = .ok [2, 3/2]
    ∧ train_forward sampleCfgBad sampleBatch sampleModels sampleSchedEps [[0]] [0]
        (some 2) = .error (.unknownPredictionType "sample") := by
  refine ⟨?_, ?_, (C3_min_snr_weights sampleModels sampleSchedEps 2 [0]
    sampleCfgBad sampleBatch [[0]]).2.2 (by decide) (by decide) [[1]] rfl⟩
  · rw [(C3_min_snr_weights sampleModels sampleSchedEps 2 [0, 3] sampleCfgBad
      sampleBatch [[0]]).1 rfl]
    norm_num [sampleModels]
  · rw [(C3_min_snr_weights sampleModels sampleSchedV 2 [0, 3] sampleCfgBad
      sampleBatch [[0]]).2.1 rfl]
    norm_num [sampleModels]

/-- C8 counterexample: train_forward does not leave the noise scheduler
unchanged. With the scheduler configured for epsilon and config.prediction_type
set to v_prediction, the call succeeds and the scheduler configuration after
the call carries prediction_type v_prediction, not its original value. -/
theorem C8_counterexample :
    (train_forward sampleCfgV sampleBatch sampleModels sampleSchedEps [[0]] [0]
        none).map Prod.snd =
      .ok { num_train_timesteps := 1000, prediction_type := "v_prediction" }
    ∧ sampleSchedEps ≠
      { num_train_timesteps := 1000, prediction_type := "v_prediction" } := by
  constructor
  · rfl
  · decide

/-- C8 (amended): train_forward is a pure function of its arguments and the
externalized random draws, except that it overwrites the scheduler configured
prediction_type with config.prediction_type when the latter is set; when
config.prediction_type is none the scheduler is returned unchanged. -/
theorem C8_scheduler_override
    (config : ForwardConfig) (data_batch : DataBatch) (models : SdModels)
    (noise_scheduler : SchedulerConfig) (noise : Tensor2) (timesteps : List ℕ)
    (gamma : Option ℚ) :
    (∀ l s,
      train_forward config data_batch models noise_scheduler noise timesteps gamma =
        .ok (l, s) → s = effectiveScheduler config noise_scheduler)
    ∧ (config.prediction_type = none →
      effectiveScheduler config noise_scheduler = noise_scheduler)
    ∧ (∀ p, config.prediction_type = some p →
      (effectiveScheduler config noise_scheduler).prediction_type = p) := by
  refine ⟨fun l s h => ?_, fun h => ?_, fun p h => ?_⟩
  · cases h1 : latentsOf models data_batch with
    | error e =>
      simp only [train_forward, h1] at h
      exact Except.noConfusion h
    | ok lat =>
      cases h2 : selectTarget models (effectiveScheduler config noise_scheduler)
          lat noise timesteps with
      | error e =>
        simp only [train_forward, h1, h2] at h
        exact Except.noConfusion h
      | ok tgt =>
        cases gamma with
        | none =>
          simp only [train_forward, h1, h2] at h
          exact (congrArg Prod.snd (Except.ok.inj h)).symm
        | some g =>
          cases h3 : minSnrWeightsOf models (effectiveScheduler config noise_scheduler)
              g timesteps with
          | error e =>
            simp only [train_forward, h1, h2, h3, Except.map] at h
            exact Except.noConfusion h
          | ok w =>
            simp only [train_forward, h1, h2, h3, Except.map] at h
            exact (congrArg Prod.snd (Except.ok.inj h)).symm
  · simp [effectiveScheduler, h]
  · simp [effectiveScheduler, h]

/-- C8 witness: the amended characterization on concrete inputs. -/
theorem C8_witness :
    ({ num_train_timesteps := 1000, prediction_type := "v_prediction" } :
        SchedulerConfig) = effectiveScheduler sampleCfgV sampleSchedEps
    ∧ effectiveScheduler sampleCfgNone sampleSchedEps = sampleSchedEps
    ∧ (effectiveScheduler sampleCfgV sampleSchedEps).prediction_type =
        "v_prediction" := by
  refine ⟨(C8_scheduler_override sampleCfgV sampleBatch sampleModels sampleSchedEps
      [[0]] [0] none).1 2 _ ?_,
    (C8_scheduler_override sampleCfgNone sampleBatch sampleModels sampleSchedEps
      [[0]] [0] none).2.1 rfl,
    (C8_scheduler_override sampleCfgV sampleBatch sampleModels sampleSchedEps
      [[0]] [0] none).2.2 "v_prediction" rfl⟩
  norm_num [train_forward, latentsOf, selectTarget, msePerExample, condOf,
    effectiveScheduler, listMean, sampleBatch, sampleModels, sampleCfgV, sampleSchedEps]

/-
Training loop controller (train.py lines 441-633). A step is one optimizer
update. Within an epoch, the accelerate gradient-accumulation context reports
sync_gradients at every accumulation boundary and at the end of the
dataloader (train.py comment at lines 445-447); global_step increments only
there (lines 580-582), and the loop over batches breaks once global_step
reaches num_train_steps (lines 618-619).
-/

/-- Whether the accelerator reports a completed optimizer update after batch
index i of an epoch with nb batches: every accum-th batch, and always at the
end of the dataloader. -/
def syncAt (accum nb i : ℕ) : Bool := ((i + 1) % accum == 0) || (i + 1 == nb)

/-- The per-epoch list of sync flags, one per batch. -/
def epochSyncFlags (accum nb : ℕ) : List Bool := (List.range nb).map (syncAt accum nb)

/-- The batch loop of one epoch (train.py lines 551-619), reduced to its
global_step bookkeeping: given the termination budget nts, the sync flags of
the remaining batches and the current global_step, returns the final
global_step together with the number of batches processed (the loop breaks
after the batch at which global_step reaches nts). -/
def runBatches (nts : ℕ) : List Bool → ℕ → ℕ × ℕ
  | [], gs => (gs, 0)
  | s :: rest, gs =>
    let gsNext := if s then gs + 1 else gs
    if nts ≤ gsNext then (gsNext, 1)
    else
      let r := runBatches nts rest gsNext
      (r.1, r.2 + 1)

/-- The global_step after one epoch. -/
def runEpoch (nts : ℕ) (flags : List Bool) (gs : ℕ) : ℕ := (runBatches nts flags gs).1

/-- The epoch loop (train.py line 549): e epochs starting from global_step gs. -/
def runEpochs (nts : ℕ) (flags : List Bool) : ℕ → ℕ → ℕ
  | 0, gs => gs
  | e + 1, gs => runEpochs nts flags e (runEpoch nts flags gs)

/-- train.py line 448: math.ceil(len(data_loader) / gradient_accumulation_steps). -/
def num_steps_per_epoch (nb accum : ℕ) : ℕ := (nb + accum - 1) / accum

/-- Python truthiness of `a or b` on an optional integer: some 0 is falsy.
Valid configurations never hit the fallback with a present value. -/
def pyOrNat (a : Option ℕ) (b : ℕ) : ℕ :=
  match a with
  | some n => if n = 0 then b else n
  | none => b

/-- train.py line 449: config.max_train_steps or config.max_train_epochs *
num_steps_per_epoch. -/
def num_train_steps (max_train_steps max_train_epochs : Option ℕ) (spe : ℕ) : ℕ :=
  pyOrNat max_train_steps ((max_train_epochs.getD 0) * spe)

/-- train.py line 450: math.ceil(num_train_steps / num_steps_per_epoch). -/
def num_train_epochs (nts spe : ℕ) : ℕ := (nts + spe - 1) / spe

/-- The final global_step of a whole training run (train.py lines 504-633):
num_train_epochs epochs over nb batches each, starting from global_step 0. -/
def trainLoopFinalStep (nb accum : ℕ) (max_train_steps max_train_epochs : Option ℕ) : ℕ :=
  let spe := num_steps_per_epoch nb accum
  let nts := num_train_steps max_train_steps max_train_epochs spe
  runEpochs nts (epochSyncFlags accum nb) (num_train_epochs nts spe) 0

/-- The trace of global_step values observed after each processed batch of one
epoch (train.py lines 551-619), stopping once the break condition fires. -/
def gsTrace (nts : ℕ) : List Bool → ℕ → List ℕ
  | [], _ => []
  | s :: rest, gs =>
    let gsNext := if s then gs + 1 else gs
    if nts ≤ gsNext then [gsNext] else gsNext :: gsTrace nts rest gsNext

theorem runBatches_fst (nts : ℕ) :
    ∀ (flags : List Bool) (gs : ℕ), gs < nts →
      (runBatches nts flags gs).1 = min (gs + flags.count true) nts := by
  intro flags
  induction flags with
  | nil => intro gs h; simp [runBatches, Nat.min_eq_left (Nat.le_of_lt h)]
  | cons s rest ih =>
    intro gs h
    cases s with
    | true =>
      by_cases hb : nts ≤ gs + 1
      · have hgs : gs + 1 = nts := Nat.le_antisymm h hb
        simp [runBatches, hb, List.count_cons]
        omega
      · have hlt : gs + 1 < nts := by omega
        simp [runBatches, hb, List.count_cons, ih (gs + 1) hlt]
        omega
    | false =>
      have hb : ¬ nts ≤ gs := by omega
      simp [runBatches, hb, List.count_cons, ih gs h]

theorem countP_accum_boundaries (accum : ℕ) :
    ∀ m, (List.range m).countP (fun i => (i + 1) % accum == 0) = m / accum := by
  intro m
  induction m with
  | zero => simp
  | succ m ih =>
    rw [List.range_succ, List.countP_append, ih, Nat.succ_div]
    simp only [List.countP_cons, List.countP_nil]
    by_cases hd : accum ∣ m + 1
    · have hm : (m + 1) % accum = 0 := Nat.dvd_iff_mod_eq_zero.mp hd
      simp [hd, hm]
    · have hm : (m + 1) % accum ≠ 0 :=
        fun h => hd (Nat.dvd_iff_mod_eq_zero.mpr h)
      simp [hd, hm]

theorem epochSyncFlags_count (accum nb : ℕ) (ha : 1 ≤ accum) (hnb : 1 ≤ nb) :
    (epochSyncFlags accum nb).count true = num_steps_per_epoch nb accum := by
  obtain ⟨m, rfl⟩ : ∃ m, nb = m + 1 := ⟨nb - 1, by omega⟩
  rw [epochSyncFlags, List.count_eq_countP, List.countP_map]
  have hpred : ∀ i ∈ List.range m,
      (((fun b => b == true) ∘ syncAt accum (m + 1)) i = true ↔
        ((fun i => (i + 1) % accum == 0) i) = true) := by
    intro i hi
    have him : i < m := List.mem_range.mp hi
    simp [syncAt, Function.comp]
    omega
  rw [List.range_succ, List.countP_append, List.countP_congr hpred,
    countP_accum_boundaries accum m]
  have hlast : ((fun b => b == true) ∘ syncAt accum (m + 1)) m = true := by
    simp [syncAt, Function.comp]
  simp only [List.countP_cons, List.countP_nil, hlast]
  have harith : m + 1 + accum - 1 = m + accum := by omega
  rw [num_steps_per_epoch, harith, Nat.add_div_right m (by omega)]
  simp

theorem runEpochs_succ_min (nts c : ℕ) (flags : List Bool) (hc : flags.count true = c) :
    ∀ e gs, gs + e * c < nts →
      runEpochs nts flags (e + 1) gs = min (gs + (e + 1) * c) nts := by
  intro e
  induction e with
  | zero =>
    intro gs h
    have hgs : gs < nts := by omega
    show runEpochs nts flags 0 (runEpoch nts flags gs) = _
    rw [runEpochs, runEpoch, runBatches_fst nts flags gs hgs, hc]
    omega
  | succ e ih =>
    intro gs h
    rw [Nat.succ_mul] at h
    have he : gs + e * c < nts := by omega
    have hgs : gs < nts := by omega
    have hstep : runEpoch nts flags gs = gs + c := by
      rw [runEpoch, runBatches_fst nts flags gs hgs, hc]
      omega
    show runEpochs nts flags (e + 1) (runEpoch nts flags gs) = _
    rw [hstep, ih (gs + c) (by omega)]
    have : gs + c + (e + 1) * c = gs + (e + 1 + 1) * c := by ring
    rw [this]

/-- C4: the training loop terminates exactly when global_step reaches
num_train_steps, the total optimizer-update budget (max_train_steps when
given, else max_train_epochs times ceil(batches / accumulation steps)); the
condition is checked after every batch and breaks out of the batch loop when
reached. In the scenario max_train_steps=10, gradient_accumulation_steps=2,
10 batches per epoch, there are exactly 5 optimizer updates per epoch, two
epochs run, training stops at global_step=10, and the second epoch processes
all of its 10 batches, so the stop is not mid-epoch. -/
theorem C4_termination
    (nb accum : ℕ) (max_train_steps max_train_epochs : Option ℕ)
    (hnb : 1 ≤ nb) (hacc : 1 ≤ accum)
    (hvalid : (∃ n, max_train_steps = some n ∧ 1 ≤ n ∧ max_train_epochs = none)
      ∨ (max_train_steps = none ∧ ∃ m, max_train_epochs = some m ∧ 1 ≤ m)) :
    trainLoopFinalStep nb accum max_train_steps max_train_epochs =
      num_train_steps max_train_steps max_train_epochs (num_steps_per_epoch nb accum)
    ∧ num_steps_per_epoch 10 2 = 5
    ∧ (epochSyncFlags 2 10).count true = 5
    ∧ num_train_epochs (num_train_steps (some 10) none (num_steps_per_epoch 10 2))
        (num_steps_per_epoch 10 2) = 2
    ∧ trainLoopFinalStep 10 2 (some 10) none = 10
    ∧ runBatches 10 (epochSyncFlags 2 10) 5 = (10, 10) := by
  refine ⟨?_, by decide, by decide, by decide, by decide, by decide⟩
  set spe := num_steps_per_epoch nb accum with hspe
  set nts := num_train_steps max_train_steps max_train_epochs spe with hnts
  have hc : (epochSyncFlags accum nb).count true = spe :=
    epochSyncFlags_count accum nb hacc hnb
  have hspe1 : 1 ≤ spe := by
    rw [hspe, num_steps_per_epoch]
    have : accum ≤ nb + accum - 1 := by omega
    exact Nat.one_le_div_iff (by omega) |>.mpr this
  have hnts1 : 1 ≤ nts := by
    rcases hvalid with ⟨n, hn, hn1, _⟩ | ⟨hn, m, hm, hm1⟩
    · rw [hnts, num_train_steps, hn]
      show 1 ≤ if n = 0 then (max_train_epochs.getD 0) * spe else n
      rw [if_neg (by omega)]
      exact hn1
    · rw [hnts, num_train_steps, hn, hm]
      show 1 ≤ m * spe
      exact Nat.mul_pos (by omega) (by omega)
  obtain ⟨d, hd⟩ : ∃ d, nts = d + 1 := ⟨nts - 1, by omega⟩
  have hnte : num_train_epochs nts spe = d / spe + 1 := by
    rw [num_train_epochs, hd]
    have : d + 1 + spe - 1 = d + spe := by omega
    rw [this, Nat.add_div_right d (by omega)]
  show runEpochs nts (epochSyncFlags accum nb) (num_train_epochs nts spe) 0 = nts
  rw [hnte, runEpochs_succ_min nts spe (epochSyncFlags accum nb) hc (d / spe) 0 ?hlt]
  case hlt =>
    have := Nat.div_mul_le_self d spe
    omega
  have hge : nts ≤ (d / spe + 1) * spe := by
    have h1 := Nat.div_add_mod d spe
    have h2 : d % spe < spe := Nat.mod_lt d (by omega)
    have h3 : (d / spe + 1) * spe = spe * (d / spe) + spe := by ring
    omega
  omega

/-- C4 witness: the general termination equation instantiated on the
scenario configuration. -/
theorem C4_witness :
    trainLoopFinalStep 10 2 (some 10) none =
      num_train_steps (some 10) none (num_steps_per_epoch 10 2) :=
  (C4_termination 10 2 (some 10) none (by omega) (by omega)
    (Or.inl ⟨10, rfl, by omega, rfl⟩)).1

theorem gsTrace_chain (nts : ℕ) :
    ∀ (flags : List Bool) (gs : ℕ), List.Chain' (· ≤ ·) (gs :: gsTrace nts flags gs) := by
  intro flags
  induction flags with
  | nil => intro gs; simp [gsTrace]
  | cons s rest ih =>
    intro gs
    cases s with
    | true =>
      by_cases hb : nts ≤ gs + 1
      · have htr : gsTrace nts (true :: rest) gs = [gs + 1] := by simp [gsTrace, hb]
        rw [htr]
        exact List.chain'_cons.mpr ⟨by omega, List.chain'_singleton _⟩
      · have htr : gsTrace nts (true :: rest) gs = (gs + 1) :: gsTrace nts rest (gs + 1) := by
          simp [gsTrace, hb]
        rw [htr]
        exact List.chain'_cons.mpr ⟨by omega, ih (gs + 1)⟩
    | false =>
      by_cases hb : nts ≤ gs
      · have htr : gsTrace nts (false :: rest) gs = [gs] := by simp [gsTrace, hb]
        rw [htr]
        exact List.chain'_cons.mpr ⟨by omega, List.chain'_singleton _⟩
      · have htr : gsTrace nts (false :: rest) gs = gs :: gsTrace nts rest gs := by
          simp [gsTrace, hb]
        rw [htr]
        exact List.chain'_cons.mpr ⟨by omega, ih gs⟩

theorem gsTrace_get? (nts : ℕ) :
    ∀ (flags : List Bool) (gs i : ℕ), i < (gsTrace nts flags gs).length →
      (gsTrace nts flags gs).get? i = some (gs + (flags.take (i + 1)).count true) := by
  intro flags
  induction flags with
  | nil => intro gs i h; simp [gsTrace] at h
  | cons s rest ih =>
    intro gs i h
    cases s with
    | true =>
      by_cases hb : nts ≤ gs + 1
      · have htr : gsTrace nts (true :: rest) gs = [gs + 1] := by simp [gsTrace, hb]
        rw [htr] at h ⊢
        have hi : i = 0 := by simpa using h
        subst hi
        simp
      · have htr : gsTrace nts (true :: rest) gs = (gs + 1) :: gsTrace nts rest (gs + 1) := by
          simp [gsTrace, hb]
        rw [htr] at h ⊢
        cases i with
        | zero => simp
        | succ i =>
          rw [List.get?_cons_succ, ih (gs + 1) i (by simpa using h)]
          simp [List.count_cons]
          omega
    | false =>
      by_cases hb : nts ≤ gs
      · have htr : gsTrace nts (false :: rest) gs = [gs] := by simp [gsTrace, hb]
        rw [htr] at h ⊢
        have hi : i = 0 := by simpa using h
        subst hi
        simp
      · have htr : gsTrace nts (false :: rest) gs = gs :: gsTrace nts rest gs := by
          simp [gsTrace, hb]
        rw [htr] at h ⊢
        cases i with
        | zero => simp
        | succ i =>
          rw [List.get?_cons_succ, ih gs i (by simpa using h)]
          simp [List.count_cons]

theorem gsTrace_getLast (nts : ℕ) :
    ∀ (flags : List Bool) (gs : ℕ),
      (gs :: gsTrace nts flags gs).getLast? = some ((runBatches nts flags gs).1) := by
  intro flags
  induction flags with
  | nil => intro gs; simp [gsTrace, runBatches]
  | cons s rest ih =>
    intro gs
    cases s with
    | true =>
      by_cases hb : nts ≤ gs + 1
      · have htr : gsTrace nts (true :: rest) gs = [gs + 1] := by simp [gsTrace, hb]
        rw [htr]
        simp [runBatches, hb]
      · have htr : gsTrace nts (true :: rest) gs = (gs + 1) :: gsTrace nts rest (gs + 1) := by
          simp [gsTrace, hb]
        have hrb : (runBatches nts (true :: rest) gs).1 =
            (runBatches nts rest (gs + 1)).1 := by simp [runBatches, hb]
        rw [htr, List.getLast?_cons_cons, hrb]
        exact ih (gs + 1)
    | false =>
      by_cases hb : nts ≤ gs
      · have htr : gsTrace nts (false :: rest) gs = [gs] := by simp [gsTrace, hb]
        rw [htr]
        simp [runBatches, hb]
      · have htr : gsTrace nts (false :: rest) gs = gs :: gsTrace nts rest gs := by
          simp [gsTrace, hb]
        have hrb : (runBatches nts (false :: rest) gs).1 =
            (runBatches nts rest gs).1 := by simp [runBatches, hb]
        rw [htr, List.getLast?_cons_cons, hrb]
        exact ih gs

/-- C5: global_step is monotonically non-decreasing along the trace of values
it takes over the processed batches of an epoch, it equals its starting value
plus the number of sync boundaries among the batches processed so far (so it
increments by exactly 1 at each gradient-accumulation sync boundary and never
on a raw batch without a sync), and the last trace value is the global_step
the epoch loop continues with. -/
theorem C5_global_step_monotone (nts gs : ℕ) (flags : List Bool) :
    List.Chain' (· ≤ ·) (gs :: gsTrace nts flags gs)
    ∧ (∀ i, i < (gsTrace nts flags gs).length →
        (gsTrace nts flags gs).get? i = some (gs + (flags.take (i + 1)).count true))
    ∧ (gs :: gsTrace nts flags gs).getLast? = some ((runBatches nts flags gs).1) :=
  ⟨gsTrace_chain nts flags gs,
   fun i h => gsTrace_get? nts flags gs i h,
   gsTrace_getLast nts flags gs⟩

/-- C5 witness: the trace characterization on a concrete flag list, with the
index formula evaluated at a concrete position. -/
theorem C5_witness :
    List.Chain' (· ≤ ·) (3 :: gsTrace 100 [true, false, true] 3)
    ∧ (gsTrace 100 [true, false, true] 3).get? 1 =
        some (3 + ([true, false, true].take 2).count true)
    ∧ (3 :: gsTrace 100 [true, false, true] 3).getLast? =
        some ((runBatches 100 [true, false, true] 3).1) :=
  ⟨(C5_global_step_monotone 100 3 [true, false, true]).1,
   (C5_global_step_monotone 100 3 [true, false, true]).2.1 1 (by decide),
   (C5_global_step_monotone 100 3 [true, false, true]).2.2⟩

/-
The train entry point (train.py lines 257-633), reduced to its observable
sequence of major side-effecting phases and the configuration errors raised
between them, in source order.
-/

/-- The major phases of train, in the order the source executes them. -/
inductive TrainEvent where
  | createOutputDir
  | initAccelerator
  | loadModels
  | cacheTextEncoderOutputsPhase
  | cacheVaeOutputsPhase
  | injectLoraUnet
  | injectLoraTextEncoder
  | initOptimizer
  | buildDataLoaderPhase
  | trainingLoop
deriving DecidableEq

/-- Configuration errors raised by train before the training loop. -/
inductive TrainConfigError where
  | cacheTextEncoderConflict
  | vaeCacheRandomFlip
  | vaeCacheNoCenterCrop
  | cadenceAssertionFailed
deriving DecidableEq

/-- The slice of SdLoraConfig driving the control flow of train. -/
structure TrainConfig where
  cache_text_encoder_outputs : Bool
  train_text_encoder : Bool
  cache_vae_outputs : Bool
  random_flip : Bool
  center_crop : Bool
  train_unet : Bool
  max_train_steps : Option ℕ
  max_train_epochs : Option ℕ
  save_every_n_steps : Option ℕ
  save_every_n_epochs : Option ℕ
  validate_every_n_steps : Option ℕ
  validate_every_n_epochs : Option ℕ
deriving DecidableEq

/-- train.py lines 441-443: sum([x is not None, y is not None]) == 1. -/
def exactlyOne (a b : Option ℕ) : Bool := a.isSome.toNat + b.isSome.toNat == 1

/-- train.py lines 257-633 (train): the phases executed, in order, together
with the first configuration error raised, if any. Phase order follows the
source: output dir (267-269), accelerator (271), model loading (293-296),
the text-encoder cache block with its train_text_encoder check (306-326),
the VAE cache block with its random_flip and center_crop checks (330-355),
LoRA injection (382-399), optimizer (430), data loader (432-437), the three
exactly-one asserts (441-443), then the training loop (549-633). -/
def train (c : TrainConfig) : List TrainEvent × Option TrainConfigError :=
  let evts := [TrainEvent.createOutputDir, TrainEvent.initAccelerator,
    TrainEvent.loadModels]
  if c.cache_text_encoder_outputs && c.train_text_encoder then
    (evts, some .cacheTextEncoderConflict)
  else
    let evts := if c.cache_text_encoder_outputs then
      evts ++ [TrainEvent.cacheTextEncoderOutputsPhase] else evts
    if c.cache_vae_outputs && c.random_flip then
      (evts, some .vaeCacheRandomFlip)
    else if c.cache_vae_outputs && !c.center_crop then
      (evts, some .vaeCacheNoCenterCrop)
    else
      let evts := if c.cache_vae_outputs then
        evts ++ [TrainEvent.cacheVaeOutputsPhase] else evts
      let evts := if c.train_unet then evts ++ [TrainEvent.injectLoraUnet] else evts
      let evts := if c.train_text_encoder then
        evts ++ [TrainEvent.injectLoraTextEncoder] else evts
      let evts := evts ++ [TrainEvent.initOptimizer, TrainEvent.buildDataLoaderPhase]
      if !(exactlyOne c.max_train_steps c.max_train_epochs
          && exactlyOne c.save_every_n_steps c.save_every_n_epochs
          && exactlyOne c.validate_every_n_steps c.validate_every_n_epochs) then
        (evts, some .cadenceAssertionFailed)
      else
        (evts ++ [TrainEvent.trainingLoop], none)

/-- A config with text-encoder caching and text-encoder training both on. -/
def confCacheConflict : TrainConfig where
  cache_text_encoder_outputs := true
  train_text_encoder := true
  cache_vae_outputs := false
  random_flip := false
  center_crop := true
  train_unet := true
  max_train_steps := some 10
  max_train_epochs := none
  save_every_n_steps := some 1
  save_every_n_epochs := none
  validate_every_n_steps := some 1
  validate_every_n_epochs := none

/-- C6 counterexample: with cache_text_encoder_outputs and train_text_encoder
both set, train does raise the configuration error, but models have already
been loaded at that point: the check at train.py line 312 runs after
load_models_sd at line 294, so the error is not raised before any model is
loaded. -/
theorem C6_counterexample :
    (train confCacheConflict).2 = some .cacheTextEncoderConflict
    ∧ TrainEvent.loadModels ∈ (train confCacheConflict).1 := by
  constructor
  · rfl
  · decide

/-- C6 (amended): when cache_text_encoder_outputs and train_text_encoder are
both true, train raises the configuration error right after model loading:
no caching, no LoRA injection, no optimizer or dataloader construction, and
no training computation happen. -/
theorem C6_cache_conflict_fails_fast (c : TrainConfig)
    (h1 : c.cache_text_encoder_outputs = true) (h2 : c.train_text_encoder = true) :
    (train c).2 = some .cacheTextEncoderConflict
    ∧ (train c).1 = [TrainEvent.createOutputDir, TrainEvent.initAccelerator,
        TrainEvent.loadModels] := by
  simp [train, h1, h2]

/-- C6 witness: the amended theorem on the concrete conflicting config. -/
theorem C6_witness :
    (train confCacheConflict).2 = some .cacheTextEncoderConflict
    ∧ (train confCacheConflict).1 = [TrainEvent.createOutputDir,
        TrainEvent.initAccelerator, TrainEvent.loadModels] :=
  C6_cache_conflict_fails_fast confCacheConflict rfl rfl

/-- A config violating the exactly-one stopping-bound constraint (both
max_train_steps and max_train_epochs set). -/
def confBothBounds : TrainConfig where
  cache_text_encoder_outputs := false
  train_text_encoder := false
  cache_vae_outputs := false
  random_flip := false
  center_crop := true
  train_unet := true
  max_train_steps := some 10
  max_train_epochs := some 2
  save_every_n_steps := some 1
  save_every_n_epochs := none
  validate_every_n_steps := some 1
  validate_every_n_epochs := none

/-- A config satisfying all three exactly-one constraints and no cache
conflicts. -/
def confValid : TrainConfig where
  cache_text_encoder_outputs := false
  train_text_encoder := false
  cache_vae_outputs := false
  random_flip := false
  center_crop := true
  train_unet := true
  max_train_steps := some 10
  max_train_epochs := none
  save_every_n_steps := some 1
  save_every_n_epochs := none
  validate_every_n_steps := some 1
  validate_every_n_epochs := none

/-- C7: a configuration on which train reaches the training loop satisfies
exactly one of each pair {max_train_steps, max_train_epochs},
{save_every_n_steps, save_every_n_epochs}, {validate_every_n_steps,
validate_every_n_epochs}; and a configuration violating any of the three
exactly-one constraints makes train stop with a configuration error before
the training loop is ever entered. -/
theorem C7_exactly_one_cadence (c : TrainConfig) :
    (TrainEvent.trainingLoop ∈ (train c).1 →
      exactlyOne c.max_train_steps c.max_train_epochs = true
      ∧ exactlyOne c.save_every_n_steps c.save_every_n_epochs = true
      ∧ exactlyOne c.validate_every_n_steps c.validate_every_n_epochs = true)
    ∧ (¬ (exactlyOne c.max_train_steps c.max_train_epochs = true
        ∧ exactlyOne c.save_every_n_steps c.save_every_n_epochs = true
        ∧ exactlyOne c.validate_every_n_steps c.validate_every_n_epochs = true) →
      (train c).2.isSome = true ∧ TrainEvent.trainingLoop ∉ (train c).1) := by
  have hbase : TrainEvent.trainingLoop ∉ [TrainEvent.createOutputDir,
      TrainEvent.initAccelerator, TrainEvent.loadModels] := by decide
  constructor
  · intro hmem
    by_contra hno
    have hflag : (exactlyOne c.max_train_steps c.max_train_epochs
        && exactlyOne c.save_every_n_steps c.save_every_n_epochs
        && exactlyOne c.validate_every_n_steps c.validate_every_n_epochs) = false := by
      rcases Bool.eq_false_or_eq_true (exactlyOne c.max_train_steps c.max_train_epochs)
        with h1 | h1 <;>
      rcases Bool.eq_false_or_eq_true
        (exactlyOne c.save_every_n_steps c.save_every_n_epochs) with h2 | h2 <;>
      rcases Bool.eq_false_or_eq_true
        (exactlyOne c.validate_every_n_steps c.validate_every_n_epochs) with h3 | h3 <;>
      simp [h1, h2, h3] at hno ⊢
    revert hmem
    simp only [train]
    by_cases hc1 : c.cache_text_encoder_outputs && c.train_text_encoder
    · simp [hc1, hbase]
    · simp only [hc1, Bool.false_eq_true, if_false]
      by_cases hc2 : c.cache_vae_outputs && c.random_flip
      · simp [hc2]
        cases hcte : c.cache_text_encoder_outputs <;> simp [hcte]
      · simp only [hc2, Bool.false_eq_true, if_false]
        by_cases hc3 : c.cache_vae_outputs && !c.center_crop
        · simp [hc3]
          cases hcte : c.cache_text_encoder_outputs <;> simp [hcte]
        · simp only [hc3, Bool.false_eq_true, if_false, hflag, Bool.not_false, if_true]
          cases hcte : c.cache_text_encoder_outputs <;>
          cases hcv : c.cache_vae_outputs <;>
          cases hu : c.train_unet <;>
          cases ht : c.train_text_encoder <;>
          simp
  · intro hno
    have hflag : (exactlyOne c.max_train_steps c.max_train_epochs
        && exactlyOne c.save_every_n_steps c.save_every_n_epochs
        && exactlyOne c.validate_every_n_steps c.validate_every_n_epochs) = false := by
      rcases Bool.eq_false_or_eq_true (exactlyOne c.max_train_steps c.max_train_epochs)
        with h1 | h1 <;>
      rcases Bool.eq_false_or_eq_true
        (exactlyOne c.save_every_n_steps c.save_every_n_epochs) with h2 | h2 <;>
      rcases Bool.eq_false_or_eq_true
        (exactlyOne c.validate_every_n_steps c.validate_every_n_epochs) with h3 | h3 <;>
      simp [h1, h2, h3] at hno ⊢
    simp only [train]
    by_cases hc1 : c.cache_text_encoder_outputs && c.train_text_encoder
    · simp [hc1, hbase]
    · simp only [hc1, Bool.false_eq_true, if_false]
      by_cases hc2 : c.cache_vae_outputs && c.random_flip
      · simp [hc2]
        cases hcte : c.cache_text_encoder_outputs <;> simp [hcte]
      · simp only [hc2, Bool.false_eq_true, if_false]
        by_cases hc3 : c.cache_vae_outputs && !c.center_crop
        · simp [hc3]
          cases hcte : c.cache_text_encoder_outputs <;> simp [hcte]
        · simp only [hc3, Bool.false_eq_true, if_false, hflag, Bool.not_false, if_true]
          constructor
          · rfl
          · cases hcte : c.cache_text_encoder_outputs <;>
            cases hcv : c.cache_vae_outputs <;>
            cases hu : c.train_unet <;>
            cases ht : c.train_text_encoder <;>
            simp

/-- C7 witness: a valid config reaches the loop and satisfies all three
constraints; a config with both stopping bounds set errors out without
reaching the loop. -/
theorem C7_witness :
    (exactlyOne confValid.max_train_steps confValid.max_train_epochs = true
      ∧ exactlyOne confValid.save_every_n_steps confValid.save_every_n_epochs = true
      ∧ exactlyOne confValid.validate_every_n_steps
          confValid.validate_every_n_epochs = true)
    ∧ ((train confBothBounds).2.isSome = true
      ∧ TrainEvent.trainingLoop ∉ (train confBothBounds).1) :=
  ⟨(C7_exactly_one_cadence confValid).1 (by decide),
   (C7_exactly_one_cadence confBothBounds).2 (by decide)⟩

/-
Data pipeline assembly for textual inversion
(textual_inversion_sd_dataloader.py). The transform chain is modelled as a
list of transform descriptors; the DataLoader wrapper, samplers and the
dataset objects are external collaborators. Brace pairs in caption templates
are written with explicit escapes.
-/

/-- The two caption template presets (get_preset_ti_caption_templates). -/
inductive CaptionPreset where
  | object
  | style
deriving DecidableEq

/-- The three dataset variants the dataloader accepts. -/
inductive TIDatasetConfig where
  | hfHubImageCaption
  | hfDirImageCaption
  | imageDir
deriving DecidableEq

/-- Transform descriptors for the textual inversion transform chain. -/
inductive Transform where
  | templateCaption (fieldName placeholder : String) (templates : List String)
  | captionPrefixT (fieldName prefixText : String)
  | shuffleCaption (fieldName delimiter : String)
  | sdImage (resolution : Option ℕ) (useBuckets center_crop random_flip : Bool)
  | loadCache (cacheKeyField : String) (fieldMap : List (String × String))
  | dropField (fieldName : String)
deriving DecidableEq

/-- The slice of TextualInversionSDDataLoaderConfig the builder reads.
apply_caption_prefix is spelled applyCaptionPrefix here. -/
structure TextualInversionSDDataLoaderConfig where
  dataset : TIDatasetConfig
  caption_templates : Option (List String)
  caption_preset : Option CaptionPreset
  applyCaptionPrefix : Bool
  shuffle_caption_delimiter : Option String
  aspect_ratio_buckets : Bool
  resolution : ℕ
  center_crop : Bool
  random_flip : Bool
deriving DecidableEq

/-- textual_inversion_sd_dataloader.py lines 35-89. -/
def get_preset_ti_caption_templates (p : CaptionPreset) : List String :=
  match p with
  | .object =>
    [ "a photo of a \x7b\x7d",
      "a rendering of a \x7b\x7d",
      "a cropped photo of the \x7b\x7d",
      "the photo of a \x7b\x7d",
      "a photo of a clean \x7b\x7d",
      "a photo of a dirty \x7b\x7d",
      "a dark photo of the \x7b\x7d",
      "a photo of my \x7b\x7d",
      "a photo of the cool \x7b\x7d",
      "a close-up photo of a \x7b\x7d",
      "a bright photo of the \x7b\x7d",
      "a cropped photo of a \x7b\x7d",
      "a photo of the \x7b\x7d",
      "a good photo of the \x7b\x7d",
      "a photo of one \x7b\x7d",
      "a close-up photo of the \x7b\x7d",
      "a rendition of the \x7b\x7d",
      "a photo of the clean \x7b\x7d",
      "a rendition of a \x7b\x7d",
      "a photo of a nice \x7b\x7d",
      "a good photo of a \x7b\x7d",
      "a photo of the nice \x7b\x7d",
      "a photo of the small \x7b\x7d",
      "a photo of the weird \x7b\x7d",
      "a photo of the large \x7b\x7d",
      "a photo of a cool \x7b\x7d",
      "a photo of a small \x7b\x7d" ]
  | .style =>
    [ "a painting in the style of \x7b\x7d",
      "a rendering in the style of \x7b\x7d",
      "a cropped painting in the style of \x7b\x7d",
      "the painting in the style of \x7b\x7d",
      "a clean painting in the style of \x7b\x7d",
      "a dirty painting in the style of \x7b\x7d",
      "a dark painting in the style of \x7b\x7d",
      "a picture in the style of \x7b\x7d",
      "a cool painting in the style of \x7b\x7d",
      "a close-up painting in the style of \x7b\x7d",
      "a bright painting in the style of \x7b\x7d",
      "a cropped painting in the style of \x7b\x7d",
      "a good painting in the style of \x7b\x7d",
      "a close-up painting in the style of \x7b\x7d",
      "a rendition in the style of \x7b\x7d",
      "a nice painting in the style of \x7b\x7d",
      "a small painting in the style of \x7b\x7d",
      "a weird painting in the style of \x7b\x7d",
      "a large painting in the style of \x7b\x7d" ]

/-- The number of caption sources set (the sum at line 122). -/
def countCaptionSources (c : TextualInversionSDDataLoaderConfig) : ℕ :=
  c.caption_templates.isSome.toNat + c.caption_preset.isSome.toNat
    + c.applyCaptionPrefix.toNat

/-- The ValueError message raised at lines 123 and 144. -/
def captionSourcesMsg : String :=
  "Exactly one of caption_templates, caption_preset, or apply_caption_prefix must be set."

/-- The cache-field-to-output-field mapping at lines 183-187. -/
def stdVaeCacheFieldMap : List (String × String) :=
  [("vae_output", "vae_output"), ("original_size_hw", "original_size_hw"),
   ("crop_top_left_yx", "crop_top_left_yx")]

/-- textual_inversion_sd_dataloader.py lines 92-211
(build_textual_inversion_sd_dataloader), reduced to the transform chain it
assembles: the caption-source count check (122-123), the caption transform
selection (125-144), the resolution/bucket choice (147-161), caption
shuffling (165-166), and the image-transform versus cache-load-plus-drop
branch (168-191). -/
def build_textual_inversion_sd_dataloader
    (config : TextualInversionSDDataLoaderConfig) (placeholder_token : String)
    (vae_output_cache_dir : Option String) : Except String (List Transform) :=
  if countCaptionSources config ≠ 1 then .error captionSourcesMsg
  else
    match (match config.caption_templates with
      | some ts => Except.ok (Transform.templateCaption "caption" placeholder_token ts)
      | none =>
        match config.caption_preset with
        | some p => Except.ok (Transform.templateCaption "caption" placeholder_token
            (get_preset_ti_caption_templates p))
        | none =>
          if config.applyCaptionPrefix then
            Except.ok (Transform.captionPrefixT "caption" (placeholder_token ++ " "))
          else Except.error captionSourcesMsg) with
    | .error e => .error e
    | .ok caption_tf =>
      let target_resolution : Option ℕ :=
        if config.aspect_ratio_buckets then none else some config.resolution
      let allTransforms := [caption_tf]
      let allTransforms :=
        match config.shuffle_caption_delimiter with
        | some d => allTransforms ++ [Transform.shuffleCaption "caption" d]
        | none => allTransforms
      let allTransforms :=
        match vae_output_cache_dir with
        | none => allTransforms ++ [Transform.sdImage target_resolution
            config.aspect_ratio_buckets config.center_crop config.random_flip]
        | some _ => allTransforms ++ [Transform.loadCache "id" stdVaeCacheFieldMap,
            Transform.dropField "image"]
      .ok allTransforms

/-- One dataset sample as seen by the textual inversion transform chain. -/
structure TISample where
  id : ℕ
  image : Option (List ℚ)
  caption : String
  vae_output : Option (List ℚ)
  original_size_hw : Option (ℕ × ℕ)
  crop_top_left_yx : Option (ℕ × ℕ)
deriving DecidableEq

/-- One cache bundle written by the VAE precomputation job. -/
structure TICacheEntry where
  vae_output : List ℚ
  original_size_hw : ℕ × ℕ
  crop_top_left_yx : ℕ × ℕ
deriving DecidableEq

/-- Modelled from the spec: copy one named cache field of a bundle into the
sample (LoadCacheTransform body, not under src/; spec section 4.3 describes
hydrating vae_output and crop/size metadata by id). -/
def copyCacheField (e : TICacheEntry) (srcField dstField : String)
    (s : TISample) : TISample :=
  if srcField = "vae_output" ∧ dstField = "vae_output" then
    { s with vae_output := some e.vae_output }
  else if srcField = "original_size_hw" ∧ dstField = "original_size_hw" then
    { s with original_size_hw := some e.original_size_hw }
  else if srcField = "crop_top_left_yx" ∧ dstField = "crop_top_left_yx" then
    { s with crop_top_left_yx := some e.crop_top_left_yx }
  else s

/-- Modelled from the spec: per-sample semantics of the transforms (the
transform class bodies are not under src/). Caption templating substitutes
the placeholder into a chosen template, prefixing prepends, shuffling rewrites
the caption, the image transform rewrites the image in place, the cache-load
transform hydrates cached fields by sample id, and the drop transform removes
the named field. The template choice, caption shuffle and image augmentation
are randomized in the source and are oracle parameters here. -/
def applyTransform (cache : ℕ → TICacheEntry) (chooseTemplate : List String → String)
    (shuffleOracle : String → String) (imgAug : List ℚ → List ℚ)
    (t : Transform) (s : TISample) : TISample :=
  match t with
  | .templateCaption _ placeholder templates =>
    { s with caption := (chooseTemplate templates).replace "\x7b\x7d" placeholder }
  | .captionPrefixT _ p => { s with caption := p ++ s.caption }
  | .shuffleCaption _ _ => { s with caption := shuffleOracle s.caption }
  | .sdImage _ _ _ _ => { s with image := s.image.map imgAug }
  | .loadCache keyField fieldMap =>
    if keyField = "id" then
      fieldMap.foldl (fun acc pr => copyCacheField (cache s.id) pr.1 pr.2 acc) s
    else s
  | .dropField f => if f = "image" then { s with image := none } else s

/-- Apply a transform chain left to right (TransformDataset). -/
def applyTransforms (cache : ℕ → TICacheEntry) (chooseTemplate : List String → String)
    (shuffleOracle : String → String) (imgAug : List ℚ → List ℚ)
    (ts : List Transform) (s : TISample) : TISample :=
  ts.foldl (fun acc t => applyTransform cache chooseTemplate shuffleOracle imgAug t acc) s

/-- C9: whenever a VAE output cache directory is supplied, the built chain
contains no image transform; it contains the cache-load transform keyed by id
for vae_output, original_size_hw and crop_top_left_yx and the drop transform
for the image field, and applying the chain to any sample leaves the image
field absent and the three cached fields hydrated from the cache bundle of
the sample id. Without a cache directory, the image transform is in the
chain, no cache-load or drop transform is, and the image field of every
sample is kept (rewritten by the augmentation, not removed). -/
theorem C9_cache_dir_replaces_image_transform
    (config : TextualInversionSDDataLoaderConfig) (pt d : String) :
    (∀ ts, build_textual_inversion_sd_dataloader config pt (some d) = .ok ts →
      Transform.loadCache "id" stdVaeCacheFieldMap ∈ ts
      ∧ Transform.dropField "image" ∈ ts
      ∧ (∀ r ub cc2 rf2, Transform.sdImage r ub cc2 rf2 ∉ ts)
      ∧ ∀ cache cho shuf aug s,
          (applyTransforms cache cho shuf aug ts s).image = none
          ∧ (applyTransforms cache cho shuf aug ts s).vae_output =
              some (cache s.id).vae_output
          ∧ (applyTransforms cache cho shuf aug ts s).original_size_hw =
              some (cache s.id).original_size_hw
          ∧ (applyTransforms cache cho shuf aug ts s).crop_top_left_yx =
              some (cache s.id).crop_top_left_yx)
    ∧ (∀ ts, build_textual_inversion_sd_dataloader config pt none = .ok ts →
      Transform.sdImage
          (if config.aspect_ratio_buckets then none else some config.resolution)
          config.aspect_ratio_buckets config.center_crop config.random_flip ∈ ts
      ∧ (∀ kf fm, Transform.loadCache kf fm ∉ ts)
      ∧ (∀ f, Transform.dropField f ∉ ts)
      ∧ ∀ cache cho shuf aug s,
          (applyTransforms cache cho shuf aug ts s).image = s.image.map aug) := by
  obtain ⟨ds, ct, cp, acp, scd, arb, res, cc, rf⟩ := config
  constructor
  · intro ts h
    rcases ct with _ | tl <;> rcases cp with _ | p <;> cases acp <;>
      rcases scd with _ | dd <;>
      first
      | exact Except.noConfusion h
      | (obtain rfl := Except.ok.inj h
         refine ⟨by simp, by simp, ?_, fun cache cho shuf aug s => ⟨rfl, rfl, rfl, rfl⟩⟩
         intro r ub cc2 rf2
         simp)
  · intro ts h
    rcases ct with _ | tl <;> rcases cp with _ | p <;> cases acp <;>
      rcases scd with _ | dd <;>
      first
      | exact Except.noConfusion h
      | (obtain rfl := Except.ok.inj h
         refine ⟨by simp, ?_, ?_, fun cache cho shuf aug s => rfl⟩
         · intro kf fm; simp
         · intro f; simp)

/-- A concrete textual inversion dataloader config with caption templates. -/
def sampleTIConfig : TextualInversionSDDataLoaderConfig where
  dataset := .imageDir
  caption_templates := some ["a \x7b\x7d"]
  caption_preset := none
  applyCaptionPrefix := false
  shuffle_caption_delimiter := none
  aspect_ratio_buckets := false
  resolution := 512
  center_crop := true
  random_flip := false

/-- The chain built from sampleTIConfig with a cache directory. -/
def sampleTICacheChain : List Transform :=
  [.templateCaption "caption" "tok" ["a \x7b\x7d"],
   .loadCache "id" stdVaeCacheFieldMap, .dropField "image"]

/-- The chain built from sampleTIConfig without a cache directory. -/
def sampleTIPlainChain : List Transform :=
  [.templateCaption "caption" "tok" ["a \x7b\x7d"],
   .sdImage (some 512) false true false]

/-- A concrete cache for evaluating the chain semantics. -/
def sampleTICache : ℕ → TICacheEntry := fun _ => ⟨[5], (4, 4), (0, 0)⟩

/-- A concrete sample with an image present. -/
def sampleTISample : TISample := ⟨7, some [1], "cap", none, none, none⟩

/-- C9 witness: the chain characterization evaluated on a concrete config,
cache and sample. -/
theorem C9_witness :
    Transform.loadCache "id" stdVaeCacheFieldMap ∈ sampleTICacheChain
    ∧ (applyTransforms sampleTICache (fun ls => ls.headD "") id id
        sampleTICacheChain sampleTISample).image = none
    ∧ (applyTransforms sampleTICache (fun ls => ls.headD "") id id
        sampleTICacheChain sampleTISample).vae_output = some [5]
    ∧ Transform.sdImage (some 512) false true false ∈ sampleTIPlainChain := by
  refine ⟨((C9_cache_dir_replaces_image_transform sampleTIConfig "tok" "cdir").1
      sampleTICacheChain rfl).1,
    (((C9_cache_dir_replaces_image_transform sampleTIConfig "tok" "cdir").1
      sampleTICacheChain rfl).2.2.2 sampleTICache (fun ls => ls.headD "") id id
      sampleTISample).1,
    (((C9_cache_dir_replaces_image_transform sampleTIConfig "tok" "cdir").1
      sampleTICacheChain rfl).2.2.2 sampleTICache (fun ls => ls.headD "") id id
      sampleTISample).2.1,
    ((C9_cache_dir_replaces_image_transform sampleTIConfig "tok" "cdir").2
      sampleTIPlainChain rfl).1⟩

/-- C10: build_textual_inversion_sd_dataloader requires exactly one of
caption_templates, caption_preset, apply_caption_prefix: with zero or more
than one set it returns the configuration error before any transform is
constructed; with exactly one set, the corresponding caption transform
(template, preset-template, or prefix) is the first transform of the chain. -/
theorem C10_caption_source_exactly_one
    (config : TextualInversionSDDataLoaderConfig) (pt : String) (d : Option String) :
    (countCaptionSources config ≠ 1 →
      build_textual_inversion_sd_dataloader config pt d = .error captionSourcesMsg)
    ∧ (∀ tl ts, config.caption_templates = some tl →
        build_textual_inversion_sd_dataloader config pt d = .ok ts →
        ts.head? = some (.templateCaption "caption" pt tl))
    ∧ (∀ p ts, config.caption_templates = none → config.caption_preset = some p →
        build_textual_inversion_sd_dataloader config pt d = .ok ts →
        ts.head? = some (.templateCaption "caption" pt
          (get_preset_ti_caption_templates p)))
    ∧ (∀ ts, config.caption_templates = none → config.caption_preset = none →
        config.applyCaptionPrefix = true →
        build_textual_inversion_sd_dataloader config pt d = .ok ts →
        ts.head? = some (.captionPrefixT "caption" (pt ++ " "))) := by
  refine ⟨fun h => ?_, fun tl ts hct h => ?_, fun p ts hct hcp h => ?_,
    fun ts hct hcp hacp h => ?_⟩
  · simp only [build_textual_inversion_sd_dataloader, if_pos h]
  · obtain ⟨ds, ct, cp, acp, scd, arb, res, cc, rf⟩ := config
    simp only at hct
    subst hct
    rcases cp with _ | p <;> cases acp <;> rcases scd with _ | dd <;>
      rcases d with _ | dir <;>
      first
      | exact Except.noConfusion h
      | (obtain rfl := Except.ok.inj h; rfl)
  · obtain ⟨ds, ct, cp, acp, scd, arb, res, cc, rf⟩ := config
    simp only at hct hcp
    subst hct
    subst hcp
    cases acp <;> rcases scd with _ | dd <;> rcases d with _ | dir <;>
      first
      | exact Except.noConfusion h
      | (obtain rfl := Except.ok.inj h; rfl)
  · obtain ⟨ds, ct, cp, acp, scd, arb, res, cc, rf⟩ := config
    simp only at hct hcp hacp
    subst hct
    subst hcp
    subst hacp
    rcases scd with _ | dd <;> rcases d with _ | dir <;>
      first
      | exact Except.noConfusion h
      | (obtain rfl := Except.ok.inj h; rfl)

/-- A config with two caption sources set (templates and the prefix flag). -/
def confTwoCaptionSources : TextualInversionSDDataLoaderConfig where
  dataset := .imageDir
  caption_templates := some ["a \x7b\x7d"]
  caption_preset := none
  applyCaptionPrefix := true
  shuffle_caption_delimiter := none
  aspect_ratio_buckets := false
  resolution := 512
  center_crop := true
  random_flip := false

/-- A config whose only caption source is the prefix flag. -/
def confPrefixTI : TextualInversionSDDataLoaderConfig where
  dataset := .hfHubImageCaption
  caption_templates := none
  caption_preset := none
  applyCaptionPrefix := true
  shuffle_caption_delimiter := none
  aspect_ratio_buckets := false
  resolution := 512
  center_crop := true
  random_flip := false

/-- C10 witness: the error case and two of the head-transform cases on
concrete configs. -/
theorem C10_witness :
    build_textual_inversion_sd_dataloader confTwoCaptionSources "tok" none =
      .error captionSourcesMsg
    ∧ sampleTICacheChain.head? =
        some (.templateCaption "caption" "tok" ["a \x7b\x7d"])
    ∧ ([Transform.captionPrefixT "caption" ("tok" ++ " "),
        Transform.sdImage (some 512) false true false] : List Transform).head? =
        some (.captionPrefixT "caption" ("tok" ++ " ")) := by
  refine ⟨(C10_caption_source_exactly_one confTwoCaptionSources "tok" none).1
      (by decide),
    (C10_caption_source_exactly_one sampleTIConfig "tok" (some "cdir")).2.1
      ["a \x7b\x7d"] sampleTICacheChain rfl rfl,
    (C10_caption_source_exactly_one confPrefixTI "tok" none).2.2.2
      [Transform.captionPrefixT "caption" ("tok" ++ " "),
       Transform.sdImage (some 512) false true false] rfl rfl rfl rfl⟩
